import Mathlib

/-!
Shallow embedding of the web traffic simulator
(src/src/web_traffic_simulator.py) and proofs about its run loop,
session simulation, retry configuration, IP synthesis, statistics
reporting and configuration loading.

The network boundary, the random source and the shutdown signal are
modelled as explicit environment parameters; machine-level randomness
is a stream of natural numbers fed to the randint embedding, and the
process-wide shutdown flag is a Boolean stream indexed by poll points.
-/

namespace WebTrafficSim

/-- Outcome of one HTTP GET at the network boundary, as seen by the
client after the retry adapter: either a requests.RequestException is
raised, or a response with the given status code is returned. -/
inductive ReqOutcome where
  | exn : ReqOutcome
  | ok (status : Nat) : ReqOutcome
deriving DecidableEq, Repr

/-- The network environment for one visit attempt: what the detail-page
GET and the click-event GET would each produce. -/
structure Network where
  detail : ReqOutcome
  click : ReqOutcome
deriving DecidableEq, Repr

/-- The HTTP requests the simulator can issue. -/
inductive Request where
  | detailGet : Request
  | clickGet : Request
deriving DecidableEq, Repr

/-- Embedding of response.raise_for_status: it raises requests.HTTPError
exactly for client and server error status codes (4xx and 5xx). -/
def raisesForStatus (s : Nat) : Bool :=
  decide (400 ≤ s ∧ s < 600)

/-- Pure result of simulate_session once the network outcomes are fixed
(lines 182-203 of web_traffic_simulator.py): a detail-page exception is
caught and returns False without reaching step 2; otherwise the click
GET runs, raise_for_status is applied, and both requests.HTTPError and
any other requests.RequestException are caught and mapped to False. -/
def sessionOutcome (net : Network) : Bool :=
  match net.detail with
  | .exn => false
  | .ok _ =>
    match net.click with
    | .exn => false
    | .ok s => !(raisesForStatus s)

/-- Embedding of simulate_session (lines 167-203): random.choice on an
empty user_agents list raises IndexError, which is not caught inside the
function (modelled as none); with a non-empty pool the function always
returns a Boolean. -/
def simulate_session (user_agents : List String) (net : Network) : Option Bool :=
  if user_agents.isEmpty then none
  else some (sessionOutcome net)

/-- Requests actually issued by one call to simulate_session: the detail
GET is always sent (non-empty pool); the click GET is sent only when the
detail GET did not raise. -/
def sessionRequests (user_agents : List String) (net : Network) : List Request :=
  if user_agents.isEmpty then []
  else
    match net.detail with
    | .exn => [.detailGet]
    | .ok _ => [.detailGet, .clickGet]

/-- The mutable campaign statistics (lines 33-38): the simulation_stats
dictionary, with start_time abstracted to whether it has been set. -/
structure Stats where
  total_attempts : Nat
  successful_visits : Nat
  failed_visits : Nat
  start_time : Bool
deriving DecidableEq, Repr

/-- Initial value of the global simulation_stats dictionary. -/
def simulation_stats : Stats := ⟨0, 0, 0, false⟩

/-- Invariant relating the three counters. -/
def statsInv (s : Stats) : Prop :=
  s.total_attempts = s.successful_visits + s.failed_visits

instance (s : Stats) : Decidable (statsInv s) := by
  unfold statsInv; infer_instance

/-- The success-rate computation of print_final_stats (lines 56-58):
the division is performed only when total_attempts > 0. -/
def successRate (s : Stats) : Option ℚ :=
  if s.total_attempts > 0 then
    some ((s.successful_visits : ℚ) / (s.total_attempts : ℚ) * 100)
  else none

/-- The content of the final statistics block emitted by
print_final_stats when it prints. -/
structure FinalReport where
  total_attempts : Nat
  successful_visits : Nat
  failed_visits : Nat
  success_rate : Option ℚ
deriving DecidableEq, Repr

/-- Embedding of print_final_stats (lines 46-60): the whole block is
guarded by start_time being set; when it is not, nothing is printed. -/
def print_final_stats (s : Stats) : Option FinalReport :=
  if s.start_time then
    some ⟨s.total_attempts, s.successful_visits, s.failed_visits, successRate s⟩
  else none

/-- One iteration's counter update (lines 239-245): total_attempts is
incremented, then exactly one of successful_visits / failed_visits
according to the session result. -/
def visitStep (s : Stats) (success : Bool) : Stats :=
  let s1 := { s with total_attempts := s.total_attempts + 1 }
  if success then { s1 with successful_visits := s1.successful_visits + 1 }
  else { s1 with failed_visits := s1.failed_visits + 1 }

/-- Embedding of random.randint(a, b): returns a value in [a, b],
driven by a raw draw r from the random source. -/
def randint (a b : Nat) (r : Nat) : Nat := a + r % (b - a + 1)

/-- The private/reserved test of random_ip (lines 144-150). -/
def ipExcluded (first second : Nat) : Bool :=
  first == 10 || first == 127 ||
  (first == 169 && second == 254) ||
  (first == 172 && decide (16 ≤ second) && decide (second ≤ 31)) ||
  (first == 192 && second == 168)

/-- Four octets of a candidate IPv4 address. -/
structure Octets where
  o1 : Nat
  o2 : Nat
  o3 : Nat
  o4 : Nat
deriving DecidableEq, Repr

/-- One candidate sample of random_ip (lines 136-141): octet ranges are
those of the four randint calls. -/
def sampleOctets (r : Nat × Nat × Nat × Nat) : Octets :=
  ⟨randint 1 223 r.1, randint 0 255 r.2.1, randint 0 255 r.2.2.1, randint 1 254 r.2.2.2⟩

/-- Rejection loop of random_ip with explicit fuel; k indexes the draws
taken from the random source so far. -/
def randomIpAux (rand : Nat → Nat × Nat × Nat × Nat) : Nat → Nat → Option Octets
  | _, 0 => none
  | k, fuel + 1 =>
    let o := sampleOctets (rand k)
    if ipExcluded o.o1 o.o2 then randomIpAux rand (k + 1) fuel
    else some o

/-- Embedding of random_ip (lines 133-152): resample until a candidate
outside the excluded blocks is found (bounded by fuel since the source
loop has no intrinsic bound). -/
def random_ip (rand : Nat → Nat × Nat × Nat × Nat) (fuel : Nat) : Option Octets :=
  randomIpAux rand 0 fuel

/-- What one loop iteration's environment provides: the shutdown flag
value observed at the top-of-loop poll (line 234), the behaviour of the
session attempt (either a network environment over which
simulate_session runs, or an unanticipated exception escaping it), and
the flag value observed at the before-delay poll (line 248). -/
inductive SessionEvent where
  | net (n : Network) : SessionEvent
  | raise : SessionEvent
deriving DecidableEq, Repr

structure IterEnv where
  shutdownAtTop : Bool
  session : SessionEvent
  shutdownBeforeDelay : Bool
deriving DecidableEq, Repr

/-- How the for loop of run_simulation ended. -/
inductive ExitKind where
  | completed : ExitKind
  | shutdownStop : ExitKind
  | errorStop : ExitKind
deriving DecidableEq, Repr

structure LoopResult where
  stats : Stats
  requests : List Request
  exit : ExitKind
deriving DecidableEq, Repr

/-- Embedding of the for loop of run_simulation (lines 232-264), by
recursion on the number r of iterations still to run; the current
iteration index is count - r + 1 in Python's 1-based numbering, so at
argument r + 1 the environment of iteration count - r is consulted.
The interruptible delay between iterations touches no counter and is
modelled separately (interruptibleWait); an exception escaping the
attempt lands in the except handlers (lines 266-269) after
total_attempts was already incremented at line 239. -/
def runLoop (pool : List String) (env : Nat → IterEnv) (count : Nat) :
    Nat → Stats → List Request → LoopResult
  | 0, s, reqs => ⟨s, reqs, .completed⟩
  | r + 1, s, reqs =>
    let e := env (count - r)
    if e.shutdownAtTop then ⟨s, reqs, .shutdownStop⟩
    else
      let s1 := { s with total_attempts := s.total_attempts + 1 }
      match e.session with
      | .raise => ⟨s1, reqs, .errorStop⟩
      | .net n =>
        match simulate_session pool n with
        | none => ⟨s1, reqs ++ sessionRequests pool n, .errorStop⟩
        | some b =>
          let s2 := visitStep s b
          let reqs2 := reqs ++ sessionRequests pool n
          if e.shutdownBeforeDelay then ⟨s2, reqs2, .shutdownStop⟩
          else if r == 0 then ⟨s2, reqs2, .completed⟩
          else runLoop pool env count r s2 reqs2

/-- Result of one call to run_simulation: final statistics, the trace of
HTTP requests issued, and the final report if print_final_stats printed
one. -/
structure RunResult where
  stats : Stats
  requests : List Request
  report : Option FinalReport
deriving DecidableEq, Repr

/-- Embedding of run_simulation (lines 206-271): with an empty
User-Agent pool the function returns at line 224, before start_time is
set and before the try/finally, so print_final_stats is never called
there; otherwise start_time is set, the loop runs, and the finally
block calls print_final_stats on every way out of the loop. -/
def run_simulation (pool : List String) (env : Nat → IterEnv) (count : Nat)
    (s0 : Stats) : RunResult :=
  if pool.isEmpty then ⟨s0, [], none⟩
  else
    let s1 := { s0 with start_time := true }
    let lr := runLoop pool env count count s1 []
    ⟨lr.stats, lr.requests, print_final_stats lr.stats⟩

/-- One-unit sleep loop of the interruptible wait (lines 258-261): with
n whole-unit chunks remaining and the next flag poll at index k, count
how many whole units are actually slept; the flag is polled before each
unit and a true poll breaks out immediately. -/
def wholeUnitSleeps (flag : Nat → Bool) : Nat → Nat → Nat
  | _, 0 => 0
  | k, n + 1 => if flag k then 0 else wholeUnitSleeps flag (k + 1) n + 1

/-- Embedding of the interruptible wait (lines 251-264): the delay d is
split into int(d) whole-unit chunks (floor, since d ≥ 0) plus a
fractional remainder; whole units are slept one at a time with a flag
poll before each, and the remainder is slept only if a final poll still
finds the flag unset. Poll indices advance with each read: after j
completed unit sleeps the next poll has index j when the loop is still
running, and the final not-shutdown_requested check is one read past
the last in-loop poll. Returns the total time slept. -/
def interruptibleWait (d : ℚ) (flag : Nat → Bool) : ℚ :=
  let sleep_chunks : Nat := (⌊d⌋).toNat
  let sleep_remainder : ℚ := d - (sleep_chunks : ℚ)
  let slept : Nat := wholeUnitSleeps flag 0 sleep_chunks
  let finalPoll : Nat := if slept < sleep_chunks then slept + 1 else sleep_chunks
  if flag finalPoll = false ∧ 0 < sleep_remainder then (slept : ℚ) + sleep_remainder
  else (slept : ℚ)

/-- Outcome of the required-settings block (lines 96-102): either the
three required values, or process exit with the given code. -/
inductive ConfigResult where
  | exitWith (code : Nat) : ConfigResult
  | loaded (detail_url click_url user_id : String) : ConfigResult
deriving DecidableEq, Repr

/-- Embedding of the required-settings block (lines 96-102): the three
keys are read in order; the first missing one raises KeyError and the
handler calls exit(1). The configuration is modelled as an association
list from the parsed JSON object. -/
def loadRequiredSettings (config : List (String × String)) : ConfigResult :=
  match config.lookup "detail_url" with
  | none => .exitWith 1
  | some d =>
    match config.lookup "click_url" with
    | none => .exitWith 1
    | some c =>
      match config.lookup "user_id" with
      | none => .exitWith 1
      | some u => .loaded d c u

/-- The whole process, startup then campaign: the required-settings
block runs at import time, before run_simulation; a missing key
terminates the process with its exit code and no HTTP request is ever
issued. On the normal path the process exit code is 0 and the requests
issued are those of the campaign. -/
def programMain (config : List (String × String)) (pool : List String)
    (env : Nat → IterEnv) (count : Nat) : Nat × List Request :=
  match loadRequiredSettings config with
  | .exitWith code => (code, [])
  | .loaded _ _ _ => (0, (run_simulation pool env count simulation_stats).requests)

/-- Retry policy carried by the urllib3 Retry object (lines 121-126). -/
structure RetryPolicy where
  total : Nat
  backoff_factor : Nat
  status_forcelist : List Nat
  allowed_methods : List String
deriving DecidableEq, Repr

/-- Embedding of create_session_with_retries (lines 116-130): the Retry
configuration mounted on the session for both http and https. -/
def create_session_with_retries : RetryPolicy :=
  ⟨5, 1, [429, 500, 502, 503, 504], ["GET", "POST"]⟩

/-- Semantics of the retry adapter on one logical request: the k-th
underlying transmission gets status responses k; a status in the
forcelist consumes one unit of the retry budget and retransmits,
otherwise the status is returned to the caller. -/
def applyRetries (p : RetryPolicy) (responses : Nat → Nat) : Nat → Nat → Nat
  | k, 0 => responses k
  | k, budget + 1 =>
    if responses k ∈ p.status_forcelist then applyRetries p responses (k + 1) budget
    else responses k

/-- The retry scenario of the spec: HTTP 500 on the first three
transmissions, HTTP 200 from the fourth on. -/
def clickScenario (k : Nat) : Nat := if k < 3 then 500 else 200

/-- A benign network environment: both requests succeed with 200. -/
def quietNet : Network := ⟨.ok 200, .ok 200⟩

/-- An environment in which the flag is never observed set and every
session runs over the benign network. -/
def quietEnv : Nat → IterEnv := fun _ => ⟨false, .net quietNet, false⟩

/-- A network environment in which the detail-page GET raises. -/
def failNet : Network := ⟨.exn, .ok 200⟩

/-- An environment in which the flag is never observed set and every
session sees the detail-page GET raise. -/
def failEnv : Nat → IterEnv := fun _ => ⟨false, .net failNet, false⟩

lemma visitStep_total (s : Stats) (b : Bool) :
    (visitStep s b).total_attempts = s.total_attempts + 1 := by
  cases b <;> simp [visitStep]

lemma visitStep_start_time (s : Stats) (b : Bool) :
    (visitStep s b).start_time = s.start_time := by
  cases b <;> simp [visitStep]

lemma visitStep_le (s : Stats) (b : Bool) :
    s.total_attempts ≤ (visitStep s b).total_attempts ∧
    s.successful_visits ≤ (visitStep s b).successful_visits ∧
    s.failed_visits ≤ (visitStep s b).failed_visits := by
  cases b <;> simp [visitStep]

lemma visitStep_true (s : Stats) :
    (visitStep s true).successful_visits = s.successful_visits + 1 ∧
    (visitStep s true).failed_visits = s.failed_visits := by
  simp [visitStep]

lemma visitStep_false (s : Stats) :
    (visitStep s false).failed_visits = s.failed_visits + 1 ∧
    (visitStep s false).successful_visits = s.successful_visits := by
  simp [visitStep]

lemma runLoop_start_time (pool : List String) (env : Nat → IterEnv) (count : Nat) :
    ∀ r s reqs, (runLoop pool env count r s reqs).stats.start_time = s.start_time := by
  intro r
  induction r with
  | zero => intro s reqs; rfl
  | succ r ih =>
    intro s reqs
    simp only [runLoop]
    split
    · rfl
    · split
      · rfl
      · split
        · rfl
        · split
          · exact visitStep_start_time ..
          · split
            · exact visitStep_start_time ..
            · rw [ih]; exact visitStep_start_time ..

lemma runLoop_mono (pool : List String) (env : Nat → IterEnv) (count : Nat) :
    ∀ r s reqs,
      s.total_attempts ≤ (runLoop pool env count r s reqs).stats.total_attempts ∧
      s.successful_visits ≤ (runLoop pool env count r s reqs).stats.successful_visits ∧
      s.failed_visits ≤ (runLoop pool env count r s reqs).stats.failed_visits := by
  intro r
  induction r with
  | zero => intro s reqs; exact ⟨le_refl _, le_refl _, le_refl _⟩
  | succ r ih =>
    intro s reqs
    simp only [runLoop]
    split
    · exact ⟨le_refl _, le_refl _, le_refl _⟩
    · split
      · exact ⟨Nat.le_succ _, le_refl _, le_refl _⟩
      · split
        · exact ⟨Nat.le_succ _, le_refl _, le_refl _⟩
        · rename_i b hb
          split
          · exact visitStep_le s b
          · split
            · exact visitStep_le s b
            · have h1 := visitStep_le s b
              exact ⟨le_trans h1.1 (ih _ _).1, le_trans h1.2.1 (ih _ _).2.1,
                le_trans h1.2.2 (ih _ _).2.2⟩

lemma simulate_session_nonempty (pool : List String) (net : Network)
    (hpool : pool.isEmpty = false) :
    simulate_session pool net = some (sessionOutcome net) := by
  simp [simulate_session, hpool]

lemma runLoop_noShutdown_total (pool : List String) (env : Nat → IterEnv) (count : Nat)
    (hpool : pool.isEmpty = false)
    (h2 : ∀ i, (env i).shutdownAtTop = false)
    (h3 : ∀ i, (env i).shutdownBeforeDelay = false)
    (h4 : ∀ i, (env i).session ≠ .raise) :
    ∀ r s reqs, (runLoop pool env count r s reqs).stats.total_attempts =
      s.total_attempts + r := by
  intro r
  induction r with
  | zero => intro s reqs; rfl
  | succ r ih =>
    intro s reqs
    simp only [runLoop, h2 (count - r)]
    cases hse : (env (count - r)).session with
    | raise => exact absurd hse (h4 (count - r))
    | net n =>
      simp only [Bool.false_eq_true, if_false, simulate_session_nonempty pool n hpool,
        h3 (count - r)]
      by_cases hr : r = 0
      · subst hr
        simp [visitStep_total]
      · rw [if_neg (by simpa using hr)]
        rw [ih, visitStep_total]
        omega

lemma wholeUnitSleeps_all_false (flag : Nat → Bool) (hf : ∀ i, flag i = false) :
    ∀ n k, wholeUnitSleeps flag k n = n := by
  intro n
  induction n with
  | zero => intro k; rfl
  | succ n ih => intro k; simp [wholeUnitSleeps, hf k, ih]

lemma wholeUnitSleeps_first_true (flag : Nat → Bool) (t : Nat)
    (hbefore : ∀ i, i < t → flag i = false) (ht : flag t = true) :
    ∀ n k, k ≤ t → t ≤ k + n → wholeUnitSleeps flag k n = t - k := by
  intro n
  induction n with
  | zero =>
    intro k h1 h2
    simp only [wholeUnitSleeps]
    omega
  | succ n ih =>
    intro k h1 h2
    by_cases hk : k = t
    · subst hk
      simp [wholeUnitSleeps, ht]
    · have hkt : k < t := lt_of_le_of_ne h1 hk
      simp only [wholeUnitSleeps, hbefore k hkt, Bool.false_eq_true, if_false]
      rw [ih (k + 1) (by omega) (by omega)]
      omega

/-- Claim C1, counterexample: the claim asserts that the final
statistics are emitted on every exit path of run_simulation, including
the abort when the User-Agent pool is empty. On the empty-pool path the
function returns at line 224, before start_time is set and before the
try/finally block, so print_final_stats is never reached and no report
is emitted: at the concrete input pool = [], count = 1, the run result
carries no report. -/
theorem run_simulation_no_stats_on_empty_pool :
    (run_simulation [] quietEnv 1 simulation_stats).report = none := rfl

/-- Claim C1 (amended): on every exit path of run_simulation that
passes the User-Agent pool check — normal completion of all
iterations, early stop due to shutdown, and an unexpected error
escaping the loop — the finally block emits the final statistics
(total attempts, successes, failures, success rate only when attempts
are positive); the emission is unconditional once the loop phase is
entered, but on the empty-pool abort the function returns without
emitting anything. -/
theorem run_simulation_emits_after_pool_check (pool : List String)
    (env : Nat → IterEnv) (count : Nat) (s0 : Stats) (h : pool ≠ []) :
    (run_simulation pool env count s0).report =
      some ⟨(run_simulation pool env count s0).stats.total_attempts,
            (run_simulation pool env count s0).stats.successful_visits,
            (run_simulation pool env count s0).stats.failed_visits,
            successRate (run_simulation pool env count s0).stats⟩ := by
  have hps : pool.isEmpty = false := by
    cases pool with
    | nil => exact absurd rfl h
    | cons a l => rfl
  simp only [run_simulation, hps, Bool.false_eq_true, if_false]
  have hst : (runLoop pool env count count { s0 with start_time := true } []).stats.start_time
      = true := by
    rw [runLoop_start_time]
  simp [print_final_stats, hst]

/-- Witness for claim C1's amended theorem at a concrete non-empty
pool. -/
theorem run_simulation_emits_after_pool_check_witness :
    (run_simulation ["UA"] quietEnv 2 simulation_stats).report =
      some ⟨(run_simulation ["UA"] quietEnv 2 simulation_stats).stats.total_attempts,
            (run_simulation ["UA"] quietEnv 2 simulation_stats).stats.successful_visits,
            (run_simulation ["UA"] quietEnv 2 simulation_stats).stats.failed_visits,
            successRate (run_simulation ["UA"] quietEnv 2 simulation_stats).stats⟩ :=
  run_simulation_emits_after_pool_check ["UA"] quietEnv 2 simulation_stats (by decide)

/-- Claim C2: for every count, if the shutdown flag is never observed
set, no unanticipated error interrupts an attempt, and the User-Agent
pool is non-empty, then at completion of run_simulation the counter
total_attempts equals count (starting from the zero-initialized global
statistics); for count = 0 the loop body never executes, no HTTP
request is issued and the statistics show zero attempts. -/
theorem run_simulation_attempts_eq_count (pool : List String)
    (env : Nat → IterEnv) (count : Nat) (h1 : pool ≠ [])
    (h2 : ∀ i, (env i).shutdownAtTop = false)
    (h3 : ∀ i, (env i).shutdownBeforeDelay = false)
    (h4 : ∀ i, (env i).session ≠ .raise) :
    (run_simulation pool env count simulation_stats).stats.total_attempts = count ∧
    (count = 0 → (run_simulation pool env count simulation_stats).requests = [] ∧
      (run_simulation pool env count simulation_stats).stats.total_attempts = 0) := by
  have hps : pool.isEmpty = false := by
    cases pool with
    | nil => exact absurd rfl h1
    | cons a l => rfl
  have hmain : (run_simulation pool env count simulation_stats).stats.total_attempts
      = count := by
    simp only [run_simulation, hps, Bool.false_eq_true, if_false]
    rw [runLoop_noShutdown_total pool env count hps h2 h3 h4]
    simp [simulation_stats]
  refine ⟨hmain, fun hc => ⟨?_, by rw [hmain, hc]⟩⟩
  subst hc
  simp only [run_simulation, hps, Bool.false_eq_true, if_false]
  rfl

/-- Witness for claim C2 at a concrete environment with three
iterations and a never-set flag. -/
theorem run_simulation_attempts_eq_count_witness :
    (run_simulation ["UA"] quietEnv 3 simulation_stats).stats.total_attempts = 3 ∧
    (3 = 0 → (run_simulation ["UA"] quietEnv 3 simulation_stats).requests = [] ∧
      (run_simulation ["UA"] quietEnv 3 simulation_stats).stats.total_attempts = 0) :=
  run_simulation_attempts_eq_count ["UA"] quietEnv 3 (by decide)
    (fun _ => rfl) (fun _ => rfl) (fun _ h => nomatch h)

/-- Claim C3: every address produced by random_ip has its first octet
in [1, 223], all four octets within valid byte bounds (the fourth in
[1, 254] by construction), and never lies in a reserved or private
block: not 10.x.x.x, not 127.x.x.x, not 169.254.x.x, not 172.16.x.x
through 172.31.x.x, and not 192.168.x.x. -/
theorem random_ip_valid (rand : Nat → Nat × Nat × Nat × Nat) (fuel : Nat)
    (o : Octets) (h : random_ip rand fuel = some o) :
    1 ≤ o.o1 ∧ o.o1 ≤ 223 ∧ o.o2 ≤ 255 ∧ o.o3 ≤ 255 ∧ 1 ≤ o.o4 ∧ o.o4 ≤ 254 ∧
    ipExcluded o.o1 o.o2 = false := by
  have hb : ∀ a b r, a ≤ b → a ≤ randint a b r ∧ randint a b r ≤ b := by
    intro a b r hab
    unfold randint
    have : r % (b - a + 1) < b - a + 1 := Nat.mod_lt _ (by omega)
    omega
  have haux : ∀ fl k, randomIpAux rand k fl = some o →
      1 ≤ o.o1 ∧ o.o1 ≤ 223 ∧ o.o2 ≤ 255 ∧ o.o3 ≤ 255 ∧ 1 ≤ o.o4 ∧ o.o4 ≤ 254 ∧
      ipExcluded o.o1 o.o2 = false := by
    intro fl
    induction fl with
    | zero => intro k hk; exact absurd hk (by simp [randomIpAux])
    | succ fl ih =>
      intro k hk
      simp only [randomIpAux] at hk
      by_cases hex : ipExcluded (sampleOctets (rand k)).o1 (sampleOctets (rand k)).o2 = true
      · rw [if_pos hex] at hk
        exact ih (k + 1) hk
      · rw [if_neg hex] at hk
        cases hk
        refine ⟨(hb 1 223 _ (by omega)).1, (hb 1 223 _ (by omega)).2,
          (hb 0 255 _ (by omega)).2, (hb 0 255 _ (by omega)).2,
          (hb 1 254 _ (by omega)).1, (hb 1 254 _ (by omega)).2, ?_⟩
        simpa using hex
  exact haux fuel 0 h

/-- Witness for claim C3 at a concrete random source that is accepted
on its first draw. -/
theorem random_ip_valid_witness :
    1 ≤ (Octets.mk 1 0 0 1).o1 ∧ (Octets.mk 1 0 0 1).o1 ≤ 223 ∧
    (Octets.mk 1 0 0 1).o2 ≤ 255 ∧ (Octets.mk 1 0 0 1).o3 ≤ 255 ∧
    1 ≤ (Octets.mk 1 0 0 1).o4 ∧ (Octets.mk 1 0 0 1).o4 ≤ 254 ∧
    ipExcluded (Octets.mk 1 0 0 1).o1 (Octets.mk 1 0 0 1).o2 = false :=
  random_ip_valid (fun _ => (0, 0, 0, 0)) 1 (Octets.mk 1 0 0 1) (by decide)

/-- Claim C4: for every non-empty User-Agent pool, simulate_session is
total and returns a Boolean; it returns true exactly when both GET
requests complete and the click response status does not trigger
raise_for_status, and every network-layer exception raised by either
request is mapped to a false return value inside the function, so no
request exception propagates to the caller. -/
theorem simulate_session_total_spec (pool : List String) (net : Network)
    (h : pool ≠ []) :
    simulate_session pool net = some (sessionOutcome net) ∧
    (sessionOutcome net = true ↔
      (∃ s1, net.detail = .ok s1) ∧
      (∃ s2, net.click = .ok s2 ∧ raisesForStatus s2 = false)) ∧
    (net.detail = .exn → sessionOutcome net = false) ∧
    (net.click = .exn → sessionOutcome net = false) := by
  have hps : pool.isEmpty = false := by
    cases pool with
    | nil => exact absurd rfl h
    | cons a l => rfl
  refine ⟨simulate_session_nonempty pool net hps, ?_, ?_, ?_⟩ <;>
    rcases net with ⟨d, c⟩ <;> cases d <;> cases c <;> simp [sessionOutcome]

/-- Witness for claim C4 at a concrete pool and network. -/
theorem simulate_session_total_spec_witness :
    simulate_session ["UA"] quietNet = some (sessionOutcome quietNet) ∧
    (sessionOutcome quietNet = true ↔
      (∃ s1, quietNet.detail = .ok s1) ∧
      (∃ s2, quietNet.click = .ok s2 ∧ raisesForStatus s2 = false)) ∧
    (quietNet.detail = .exn → sessionOutcome quietNet = false) ∧
    (quietNet.click = .exn → sessionOutcome quietNet = false) :=
  simulate_session_total_spec ["UA"] quietNet (by decide)

/-- Claim C5: whenever the detail-page GET raises a request-level
failure, no click-event GET is issued for that attempt,
simulate_session returns false, and the run loop records that
iteration by incrementing failed_visits (the final count is at least
one above the count before the iteration). -/
theorem detail_failure_skips_click_and_fails (pool : List String) (n : Network)
    (env : Nat → IterEnv) (count r : Nat) (s : Stats) (reqs : List Request)
    (hpool : pool ≠ []) (hdet : n.detail = .exn)
    (htop : (env (count - r)).shutdownAtTop = false)
    (hsess : (env (count - r)).session = .net n) :
    simulate_session pool n = some false ∧
    Request.clickGet ∉ sessionRequests pool n ∧
    s.failed_visits + 1 ≤ (runLoop pool env count (r + 1) s reqs).stats.failed_visits := by
  have hps : pool.isEmpty = false := by
    cases pool with
    | nil => exact absurd rfl hpool
    | cons a l => rfl
  have hout : sessionOutcome n = false := by
    unfold sessionOutcome
    rw [hdet]
  refine ⟨by rw [simulate_session_nonempty pool n hps, hout], ?_, ?_⟩
  · simp [sessionRequests, hps, hdet]
  · simp only [runLoop, htop, Bool.false_eq_true, if_false, hsess,
      simulate_session_nonempty pool n hps, hout]
    have hfail : (visitStep s false).failed_visits = s.failed_visits + 1 :=
      (visitStep_false s).1
    split
    · rw [hfail]
    · split
      · rw [hfail]
      · calc s.failed_visits + 1 = (visitStep s false).failed_visits := hfail.symm
          _ ≤ _ := (runLoop_mono pool env count r (visitStep s false) _).2.2

/-- Witness for claim C5 at a concrete environment whose detail-page
GET raises. -/
theorem detail_failure_skips_click_and_fails_witness :
    simulate_session ["UA"] failNet = some false ∧
    Request.clickGet ∉ sessionRequests ["UA"] failNet ∧
    simulation_stats.failed_visits + 1 ≤
      (runLoop ["UA"] failEnv 1 (0 + 1) simulation_stats []).stats.failed_visits :=
  detail_failure_skips_click_and_fails ["UA"] failNet failEnv 1 0 simulation_stats []
    (by decide) rfl rfl rfl

/-- Claim C6: the interruptible wait for a duration d ≥ 0 decomposes d
into floor(d) whole one-unit sleeps plus a fractional remainder slept
at the end only if no shutdown was observed, polling the monotone
shutdown flag before each whole unit. If the flag is never set the
total slept time equals d; if the flag is first observed set at poll
index t (with t within the chunk count), exactly t whole units are
slept and the remainder is skipped, so a flag set after k completed
whole-unit sleeps (first observed at poll t ≤ k + 1) yields at most
k + 1 units slept. -/
theorem interruptibleWait_correct (d : ℚ) (flag : Nat → Bool) (hd : 0 ≤ d)
    (hmono : ∀ i j, i ≤ j → flag i = true → flag j = true) :
    ((∀ i, flag i = false) → interruptibleWait d flag = d) ∧
    (∀ t, (∀ i, i < t → flag i = false) → flag t = true → t ≤ (⌊d⌋).toNat →
      interruptibleWait d flag = (t : ℚ)) ∧
    (∀ k t, (∀ i, i < t → flag i = false) → flag t = true → t ≤ (⌊d⌋).toNat →
      t ≤ k + 1 → interruptibleWait d flag ≤ (k : ℚ) + 1) := by
  have hfloor : ((⌊d⌋).toNat : ℚ) ≤ d := by
    have h0 : (0 : ℤ) ≤ ⌊d⌋ := Int.floor_nonneg.mpr hd
    have h1 : (((⌊d⌋).toNat : ℤ) : ℚ) ≤ d := by
      rw [Int.toNat_of_nonneg h0]
      exact_mod_cast Int.floor_le d
    exact_mod_cast h1
  have hstopped : ∀ t, (∀ i, i < t → flag i = false) → flag t = true →
      t ≤ (⌊d⌋).toNat → interruptibleWait d flag = (t : ℚ) := by
    intro t hbefore ht htle
    simp only [interruptibleWait]
    rw [wholeUnitSleeps_first_true flag t hbefore ht (⌊d⌋).toNat 0 (by omega) (by omega)]
    simp only [Nat.sub_zero]
    by_cases hlt : t < (⌊d⌋).toNat
    · rw [if_pos hlt]
      have hnext : flag (t + 1) = true := hmono t (t + 1) (by omega) ht
      rw [if_neg (by simp [hnext])]
    · have hte : t = (⌊d⌋).toNat := by omega
      rw [if_neg hlt, hte]
      rw [if_neg (by simp [hte ▸ ht])]
  refine ⟨?_, hstopped, ?_⟩
  · intro hf
    simp only [interruptibleWait]
    rw [wholeUnitSleeps_all_false flag hf]
    rw [if_neg (lt_irrefl _)]
    by_cases hrem : 0 < d - ((⌊d⌋).toNat : ℚ)
    · rw [if_pos ⟨hf _, hrem⟩]; ring
    · rw [if_neg (fun hcon => hrem hcon.2)]
      have h0 : d - ((⌊d⌋).toNat : ℚ) = 0 := le_antisymm (not_lt.mp hrem) (by linarith)
      linarith
  · intro k t hbefore ht htle htk
    rw [hstopped t hbefore ht htle]
    have : (t : ℚ) ≤ (k : ℚ) + 1 := by exact_mod_cast htk
    exact this

/-- Witness for claim C6 at the concrete spec scenario: a 5.7-unit
wait with the flag never set sleeps exactly 5.7 units. -/
theorem interruptibleWait_correct_witness :
    interruptibleWait (57 / 10) (fun _ => false) = 57 / 10 :=
  (interruptibleWait_correct (57 / 10) (fun _ => false) (by norm_num)
    (fun _ _ _ h => h)).1 (fun _ => rfl)

/-- Claim C7: the retry policy is configured with at most 5 total
retry attempts per request, backoff factor 1, retryable status set
exactly {429, 500, 502, 503, 504}, and retryable methods exactly
{GET, POST}; consequently a click-event request answered with HTTP 500
three consecutive times and then 200 on the fourth transmission
resolves, within the retry budget, to a 200 response, the session
returns true and the attempt is recorded as successful. -/
theorem retry_policy_and_scenario :
    create_session_with_retries =
      ⟨5, 1, [429, 500, 502, 503, 504], ["GET", "POST"]⟩ ∧
    applyRetries create_session_with_retries clickScenario 0
      create_session_with_retries.total = 200 ∧
    simulate_session ["UA"]
      ⟨.ok 200, .ok (applyRetries create_session_with_retries clickScenario 0
        create_session_with_retries.total)⟩ = some true ∧
    ∀ s : Stats, (visitStep s true).successful_visits = s.successful_visits + 1 := by
  refine ⟨rfl, by decide, by decide, ?_⟩
  intro s
  simp [visitStep]

/-- Claim C8: the final-statistics computation divides only when
total_attempts > 0: with 10 attempts and 7 successes the reported rate
is 70.0 percent, and with 0 attempts the rate entry is omitted (no
division is performed, the printed block carries no rate). -/
theorem success_rate_guarded :
    successRate ⟨10, 7, 3, true⟩ = some 70 ∧
    print_final_stats ⟨10, 7, 3, true⟩ = some ⟨10, 7, 3, some 70⟩ ∧
    successRate ⟨0, 0, 0, true⟩ = none ∧
    print_final_stats ⟨0, 0, 0, true⟩ = some ⟨0, 0, 0, none⟩ := by
  have h70 : (7 : ℚ) / 10 * 100 = 70 := by norm_num
  refine ⟨?_, ?_, ?_, ?_⟩ <;> simp [successRate, print_final_stats] <;> norm_num

/-- Claim C9: if any required configuration key (detail_url, click_url
or user_id) is absent from the loaded configuration, the process
terminates with exit status 1 (non-zero) during startup, before any
HTTP request is issued. -/
theorem missing_key_exits_nonzero (config : List (String × String))
    (pool : List String) (env : Nat → IterEnv) (count : Nat)
    (h : config.lookup "detail_url" = none ∨ config.lookup "click_url" = none ∨
      config.lookup "user_id" = none) :
    programMain config pool env count = (1, []) ∧ (1 : Nat) ≠ 0 := by
  have hload : loadRequiredSettings config = .exitWith 1 := by
    unfold loadRequiredSettings
    rcases h with h | h | h
    · rw [h]
    · cases hd : config.lookup "detail_url" <;> simp [hd, h]
    · cases hd : config.lookup "detail_url" <;>
        cases hc : config.lookup "click_url" <;> simp [hd, hc, h]
  exact ⟨by simp [programMain, hload], by decide⟩

/-- Witness for claim C9 at a concrete configuration missing
click_url. -/
theorem missing_key_exits_nonzero_witness :
    programMain [("detail_url", "http://d"), ("user_id", "u")] ["UA"] quietEnv 1
      = (1, []) ∧ (1 : Nat) ≠ 0 :=
  missing_key_exits_nonzero [("detail_url", "http://d"), ("user_id", "u")]
    ["UA"] quietEnv 1 (Or.inr (Or.inl (by decide)))

/-- Claim C10: the statistics invariant total_attempts =
successful_visits + failed_visits holds initially and is preserved by
every loop iteration in which simulate_session returns normally; each
such iteration increments total_attempts by exactly one and exactly
one of successful_visits or failed_visits by one, and over any run of
the loop each of the three counters is non-decreasing. -/
theorem stats_invariant_and_monotone (s : Stats) (b : Bool) (pool : List String)
    (env : Nat → IterEnv) (count r : Nat) (reqs : List Request)
    (hinv : statsInv s) :
    statsInv simulation_stats ∧
    statsInv (visitStep s b) ∧
    (visitStep s b).total_attempts = s.total_attempts + 1 ∧
    (b = true → (visitStep s b).successful_visits = s.successful_visits + 1 ∧
      (visitStep s b).failed_visits = s.failed_visits) ∧
    (b = false → (visitStep s b).failed_visits = s.failed_visits + 1 ∧
      (visitStep s b).successful_visits = s.successful_visits) ∧
    s.total_attempts ≤ (runLoop pool env count r s reqs).stats.total_attempts ∧
    s.successful_visits ≤ (runLoop pool env count r s reqs).stats.successful_visits ∧
    s.failed_visits ≤ (runLoop pool env count r s reqs).stats.failed_visits := by
  have hmono := runLoop_mono pool env count r s reqs
  refine ⟨by decide, ?_, visitStep_total s b, fun hb => hb ▸ visitStep_true s,
    fun hb => hb ▸ visitStep_false s, hmono.1, hmono.2.1, hmono.2.2⟩
  unfold statsInv at hinv ⊢
  cases b <;> simp [visitStep] <;> omega

/-- Witness for claim C10 at a concrete state satisfying the
invariant. -/
theorem stats_invariant_and_monotone_witness :
    statsInv simulation_stats ∧
    statsInv (visitStep ⟨3, 2, 1, true⟩ true) ∧
    (visitStep ⟨3, 2, 1, true⟩ true).total_attempts =
      (Stats.mk 3 2 1 true).total_attempts + 1 ∧
    (true = true → (visitStep ⟨3, 2, 1, true⟩ true).successful_visits =
        (Stats.mk 3 2 1 true).successful_visits + 1 ∧
      (visitStep ⟨3, 2, 1, true⟩ true).failed_visits =
        (Stats.mk 3 2 1 true).failed_visits) ∧
    (true = false → (visitStep ⟨3, 2, 1, true⟩ true).failed_visits =
        (Stats.mk 3 2 1 true).failed_visits + 1 ∧
      (visitStep ⟨3, 2, 1, true⟩ true).successful_visits =
        (Stats.mk 3 2 1 true).successful_visits) ∧
    (Stats.mk 3 2 1 true).total_attempts ≤
      (runLoop ["UA"] quietEnv 1 1 ⟨3, 2, 1, true⟩ []).stats.total_attempts ∧
    (Stats.mk 3 2 1 true).successful_visits ≤
      (runLoop ["UA"] quietEnv 1 1 ⟨3, 2, 1, true⟩ []).stats.successful_visits ∧
    (Stats.mk 3 2 1 true).failed_visits ≤
      (runLoop ["UA"] quietEnv 1 1 ⟨3, 2, 1, true⟩ []).stats.failed_visits :=
  stats_invariant_and_monotone ⟨3, 2, 1, true⟩ true ["UA"] quietEnv 1 1 []
    (by decide)

end WebTrafficSim
